import Mathlib

/-!
Shallow embedding of the two source files of `tk-multi-loader2` that the
claims concern:

* `src/python/tk_multi_loader/loader_action_manager.py` — the
  `LoaderActionManager` class: `_get_named_actions_for_publish`
  (spec: `resolveForOne`), `get_actions_for_publishes`
  (spec: `resolveForMany`) and `_execute_hook` (spec: `execute`).
* `src/python/tk_multi_loader/proxymodel_latestpublish.py` — the
  `SgLatestPublishProxyModel.filterAcceptsRow` predicate
  (spec: `accepts`).

Python dictionaries are modelled as association lists (insertion-ordered,
unique keys where the code builds them by keyed assignment); raising is
modelled with `Except`; the in-place mutation of a record's `created_at`
field is modelled by threading the updated record value through the
computation.
-/

namespace LoaderApp

/-! ## Row filter: `SgLatestPublishProxyModel.filterAcceptsRow` -/

/-- The publish data behind a row, as read by `filterAcceptsRow` via
`get_sg_data()`: `sg_data.get('name')` (display name) and
`sg_data.get('sg_status_list')` (status, possibly `None`). -/
structure SgRowData where
  name : String
  sg_status_list : Option String
deriving DecidableEq

/-- One row passing through the proxy model: the record data (`none` when
`get_sg_data()` is falsy), the `IS_FOLDER_ROLE` flag and the
`TYPE_ID_ROLE` value (`none` when the item has no type id). -/
structure Row where
  sg_data : Option SgRowData
  is_folder : Bool
  type_id : Option Nat
deriving DecidableEq

/-- The mutable criteria held by `SgLatestPublishProxyModel`:
`_valid_type_ids` (`none` = accept-all), `_show_folders`,
`_valid_statuses` (`none` = Python `None`). -/
structure ProxyModelState where
  valid_type_ids : Option (List Nat)
  show_folders : Bool
  valid_statuses : Option String
deriving DecidableEq

/-- Error raised when `filterAcceptsRow` evaluates a local variable that
was never assigned (Python `UnboundLocalError`). -/
inductive FilterError
  | unboundLocal
deriving DecidableEq

/-- The test `self._valid_statuses not in (None, 'All')`, negated: `true`
iff `_valid_statuses` is one of the two accept-all sentinels. -/
def statusSentinel (vs : Option String) : Bool :=
  vs == none || vs == some "All"

/-- `filterAcceptsRow` (proxymodel_latestpublish.py, lines 46-92).
`nameMatch` stands for `search_exp.indexIn(publish_name) != -1`, the
case-insensitive pattern test supplied by Qt.  `publish_name` defaults to
the empty string; `publish_status` is assigned only under `if sg_data:`,
so reading it with falsy `sg_data` is an unbound-local error. -/
def filterAcceptsRow (st : ProxyModelState) (nameMatch : String → Bool)
    (row : Row) : Except FilterError Bool :=
  let publish_name : String :=
    match row.sg_data with
    | some d => d.name
    | none => ""
  let publish_status : Option (Option String) :=
    match row.sg_data with
    | some d => some d.sg_status_list
    | none => none
  let afterStatus : Except FilterError Bool :=
    match st.valid_type_ids with
    | none => Except.ok true
    | some ids =>
      if row.is_folder then
        Except.ok st.show_folders
      else
        match row.type_id with
        | none => Except.ok true
        | some t => Except.ok (ids.contains t && nameMatch publish_name)
  if statusSentinel st.valid_statuses then
    afterStatus
  else
    match publish_status with
    | none => Except.error FilterError.unboundLocal
    | some ps =>
      if ps == st.valid_statuses then afterStatus else Except.ok false

/-- The status check of lines 69-71 passes the row through: either the
criteria value is a sentinel, or record data is present and its status
equals the criteria value. -/
def statusCheckPasses (st : ProxyModelState) (row : Row) : Bool :=
  statusSentinel st.valid_statuses ||
    (match row.sg_data with
     | some d => d.sg_status_list == st.valid_statuses
     | none => false)

/-! ## Action manager: `LoaderActionManager` -/

/-- The `created_at` field of a publish record.  `pyFloat` is a Python
`float` unix epoch, `pyInt` a Python `int` epoch (numeric but not a
float), `sgTimestamp e` the structured, timezone-aware value
`datetime.datetime.fromtimestamp(e, shotgun_api3.sg_timezone.LocalTimezone())`,
`absent` the field missing or `None`. -/
inductive CreatedAt
  | pyFloat (epoch : Int)
  | pyInt (epoch : Int)
  | sgTimestamp (epoch : Int)
  | absent
deriving DecidableEq

/-- `true` exactly for the structured, timezone-aware timestamp form. -/
def CreatedAt.isStructured : CreatedAt → Bool
  | .sgTimestamp _ => true
  | _ => false

/-- A publish record (`sg_data`) as consumed by `LoaderActionManager`:
`publish_type` is the `"name"` entry of the publish-type field's dict
(`none` when that field is `None`), `created_at` as above, `id` an
identity tag so distinct records can be told apart. -/
structure SgRecord where
  id : Nat
  publish_type : Option String
  created_at : CreatedAt
deriving DecidableEq

/-- An action definition returned by the `generate_actions` hook: the
dict `{"name": ..., "caption": ..., "description": ..., "params": ...}`;
`params` is the opaque parameter bundle. -/
structure ActionDef where
  name : String
  caption : String
  description : String
  params : String
deriving DecidableEq

/-- The value `_get_named_actions_for_publish` hands back: either the
literal Python list `[]` returned early when no actions are configured
(line 71 — a list, not a dict), or the `action_defs_dict` dictionary,
modelled as an insertion-ordered association list. -/
inductive PyActions
  | pyList (l : List ActionDef)
  | pyDict (d : List (String × ActionDef))
deriving DecidableEq

/-- Python `name in entity_actions`.  On a dict this is key membership;
on a list it compares `name` against the elements, which here are action
dicts, so it is always false. -/
def memNames : PyActions → String → Bool
  | .pyList _, _ => false
  | .pyDict d, n => d.any (fun p => p.1 == n)

/-- The action names carried by a `PyActions` value (keys of the dict;
a list carries none). -/
def actNames : PyActions → List String
  | .pyList _ => []
  | .pyDict d => d.map Prod.fst

/-- Errors that can escape the action-manager functions:
`tankError` is the `TankError("Unsupported UI_AREA. Contact support.")`
raise, `attributeError` the `AttributeError` from calling `.iteritems()`
on the list `[]`. -/
inductive PyErr
  | tankError
  | attributeError
deriving DecidableEq

/-- Modelled from the spec: the `UI_AREA_MAIN`, `UI_AREA_DETAILS` and
`UI_AREA_HISTORY` constants live on the base `ActionManager` class in
`action_manager.py`, which is not among the source files; the spec says
the area is one of MAIN, DETAILS, HISTORY and anything else is
unsupported, so areas are an enumeration with a constructor for every
other value. -/
inductive UIArea
  | main
  | details
  | history
  | unknown (n : Nat)
deriving DecidableEq

/-- The `ui_area` → `ui_area_str` chain of lines 75-82: `none` means the
`raise TankError` branch. -/
def uiAreaStr : UIArea → Option String
  | .details => some "details"
  | .history => some "history"
  | .main => some "main"
  | .unknown _ => none

/-- The collaborators of `LoaderActionManager`: the `action_mappings`
setting (publish-type name → configured action identifiers), the
`actions_hook.generate_actions` hook method (`Except` models raising) and
the `actions_hook.execute_action` hook method (an `Except.error` carries
the exception text `e` shown in the error dialog). -/
structure Env where
  action_mappings : List (String × List String)
  generate_actions : SgRecord → List String → String → Except Unit (List ActionDef)
  execute_action : String → String → SgRecord → Except String Unit

/-- `mappings.get(publish_type, [])` after the publish-type lookup of
lines 56-68: the record's type name (defaulting to `"undefined"` when the
field is `None`) looked up in `action_mappings`, defaulting to `[]`. -/
def actionsFor (env : Env) (sg : SgRecord) : List String :=
  let publish_type :=
    match sg.publish_type with
    | none => "undefined"
    | some n => n
  match env.action_mappings.find? (fun p => p.1 == publish_type) with
  | some p => p.2
  | none => []

/-- Lines 84-89: if `created_at` is a float epoch, replace it in place by
the structured local-timezone timestamp; all other values are left
untouched (`isinstance(unix_timestamp, float)`). -/
def normalizeCreatedAt (sg : SgRecord) : SgRecord :=
  { sg with
    created_at :=
      match sg.created_at with
      | .pyFloat e => .sgTimestamp e
      | c => c }

/-- Lines 99-100: `action_defs_dict[action_def["name"]] = action_def` for
each returned definition, in order; assigning to an existing key
overwrites its value in place. -/
def indexByName (defs : List ActionDef) : List (String × ActionDef) :=
  defs.foldl
    (fun d a =>
      if d.any (fun p => p.1 == a.name) then
        d.map (fun p => if p.1 == a.name then (p.1, a) else p)
      else
        d ++ [(a.name, a)])
    []

/-- The dictionary built from the hook's answer on record `sg2` with
identifiers `acts` and area label `s`: empty when the hook raises
(lines 91-105). -/
def dictOfHook (env : Env) (sg2 : SgRecord) (acts : List String)
    (s : String) : PyActions :=
  match env.generate_actions sg2 acts s with
  | .error _ => .pyDict []
  | .ok defs => .pyDict (indexByName defs)

/-- `_get_named_actions_for_publish` (lines 46-105).  Returns the updated
record (the in-place `created_at` normalization is visible to the caller)
together with the returned value; the only exception that escapes is the
`TankError` for an unsupported area — a raising hook is caught and yields
the empty dict. -/
def resolveOne (env : Env) (sg : SgRecord) (ui : UIArea) :
    Except PyErr (SgRecord × PyActions) :=
  let actions := actionsFor env sg
  if actions = [] then
    Except.ok (sg, .pyList [])
  else
    match uiAreaStr ui with
    | none => Except.error PyErr.tankError
    | some s =>
      let sg2 := normalizeCreatedAt sg
      Except.ok (sg2, dictOfHook env sg2 actions s)

/-- `_get_named_actions_for_publish` specialised to the `UI_AREA_DETAILS`
constant hard-coded at the call site of line 166; at that area the
function cannot raise, so it is a total function (the bridging lemma
`resolveOne_details` below equates the two). -/
def detRes (env : Env) (sg : SgRecord) : SgRecord × PyActions :=
  let actions := actionsFor env sg
  if actions = [] then
    (sg, .pyList [])
  else
    let sg2 := normalizeCreatedAt sg
    (sg2, dictOfHook env sg2 actions "details")

/-- The intersection dictionary `intersection_actions_per_name`:
action name → accumulated `(sg_data, action)` pairs. -/
abbrev IDict := List (String × List (SgRecord × ActionDef))

/-- `intersection_actions_per_name[name].append(pair)`; at every call
site the key is present in the dictionary. -/
def appendTo (d : IDict) (name : String) (pair : SgRecord × ActionDef) :
    IDict :=
  d.map (fun p => if p.1 == name then (p.1, p.2 ++ [pair]) else p)

/-- `del intersection_actions_per_name[name]`. -/
def delKey (d : IDict) (name : String) : IDict :=
  d.filter (fun p => p.1 != name)

/-- The inner loop of lines 164-176: walk the remaining records for one
action name, re-resolving each at the DETAILS area (which mutates that
record's `created_at` in place — the updated records are threaded
through); append `(sg_data, action)` when the name is present, where
`action` is the variable leaked out of the comprehension of line 149,
else delete the name and `break`, leaving the remaining records
untouched. -/
def innerLoop (env : Env) (leaked : ActionDef) (name : String) :
    IDict → List SgRecord → IDict × List SgRecord
  | dict, [] => (dict, [])
  | dict, sg :: tl =>
    let r := detRes env sg
    if memNames r.2 name then
      let rec2 := innerLoop env leaked name (appendTo dict name (r.1, leaked)) tl
      (rec2.1, r.1 :: rec2.2)
    else
      (delKey dict name, r.1 :: tl)

/-- The outer loop of line 161: visit every key of the seed intersection
dictionary in order, threading the dictionary and the (mutated) remaining
records. -/
def nameLoop (env : Env) (leaked : ActionDef) :
    List String → IDict → List SgRecord → IDict × List SgRecord
  | [], dict, rest => (dict, rest)
  | n :: tl, dict, rest =>
    let step := innerLoop env leaked n dict rest
    nameLoop env leaked tl step.1 step.2

/-- `get_actions_for_publishes` (lines 107-202), returning the final
intersection table from which the QActions are built: one entry per
surviving action name carrying its accumulated `(record, definition)`
pair list (the QAction wrapper adds only caption/tooltip text and binds
`(sg_data, action_def["params"])` pairs from exactly this table).
`first_entity_actions.iteritems()` on the empty-list return of
`_get_named_actions_for_publish` is an `AttributeError`; when the dict is
empty the key loop never runs.  `leaked` is the last binding the
comprehension of line 149 left behind. -/
def get_actions_for_publishes (env : Env) (sg_data_list : List SgRecord)
    (ui : UIArea) : Except PyErr IDict :=
  match sg_data_list with
  | [] => Except.ok []
  | first :: rest =>
    match resolveOne env first ui with
    | .error e => Except.error e
    | .ok (_, .pyList _) => Except.error PyErr.attributeError
    | .ok (first2, .pyDict d) =>
      let init : IDict := d.map (fun p => (p.1, [(first2, p.2)]))
      match d.getLast? with
      | none => Except.ok init
      | some lastPair =>
        Except.ok (nameLoop env lastPair.2 (d.map Prod.fst) init rest).1

/-- `_execute_hook` (lines 261-276).  The `try` wraps the whole `for`
loop.  Returns the list of pairs for which `execute_action` was invoked,
and `some e` when an exception with text `e` was caught (logged and shown
once via `QMessageBox.critical`). -/
def execute_hook (env : Env) (action_name : String) :
    List (SgRecord × String) → List (SgRecord × String) × Option String
  | [] => ([], none)
  | (sg, p) :: tl =>
    match env.execute_action action_name p sg with
    | .ok _ =>
      let r := execute_hook env action_name tl
      ((sg, p) :: r.1, r.2)
    | .error e => ([(sg, p)], some e)

/-- The action-name set `resolveForOne` yields for a record at an area
(empty also when the call raises — used only to state claims). -/
def namesForPublish (env : Env) (sg : SgRecord) (ui : UIArea) :
    List String :=
  match resolveOne env sg ui with
  | .ok r => actNames r.2
  | .error _ => []

/-- The display name the pattern is tested against (`publish_name`). -/
def rowDisplayName (row : Row) : String :=
  match row.sg_data with
  | some d => d.name
  | none => ""

/-- Decidable equality for `Except`, so concrete runs of the embedded
functions can be checked by `decide`. -/
instance {e a : Type} [DecidableEq e] [DecidableEq a] :
    DecidableEq (Except e a) := fun x y =>
  match x, y with
  | .ok u, .ok v =>
    match decEq u v with
    | isTrue h => isTrue (h ▸ rfl)
    | isFalse h => isFalse fun c => h (Except.ok.inj c)
  | .error u, .error v =>
    match decEq u v with
    | isTrue h => isTrue (h ▸ rfl)
    | isFalse h => isFalse fun c => h (Except.error.inj c)
  | .ok _, .error _ => isFalse fun c => Except.noConfusion c
  | .error _, .ok _ => isFalse fun c => Except.noConfusion c

/-- Environment for the C3 evaluations: the execution hook fails with
`"boom"` on the record with id 1 and succeeds on every other record. -/
def envC3 : Env where
  action_mappings := []
  generate_actions := fun _ _ _ => Except.ok []
  execute_action := fun _ _ sg =>
    if sg.id == 1 then Except.error "boom" else Except.ok ()

/-- Record on which `envC3`'s execution hook fails. -/
def rC3fail : SgRecord := ⟨1, none, CreatedAt.absent⟩

/-- Record on which `envC3`'s execution hook succeeds. -/
def rC3ok : SgRecord := ⟨2, none, CreatedAt.absent⟩

/-- Environment for the C5 witness: one configured action, a
`generate_actions` hook that always raises. -/
def envC5 : Env where
  action_mappings := [("Maya Scene", ["import"])]
  generate_actions := fun _ _ _ => Except.error ()
  execute_action := fun _ _ _ => Except.ok ()

/-- Record with a configured publish type, for the C5 witness. -/
def rC5 : SgRecord := ⟨3, some "Maya Scene", CreatedAt.absent⟩

/-- Environment for the C9 witness: one configured action, a hook that
returns no definitions. -/
def envC9 : Env where
  action_mappings := [("Maya Scene", ["import"])]
  generate_actions := fun _ _ _ => Except.ok []
  execute_action := fun _ _ _ => Except.ok ()

/-- Record with a configured publish type, for the C9 witness. -/
def rC9 : SgRecord := ⟨4, some "Maya Scene", CreatedAt.absent⟩

/-- Environment for the C8 evaluations: one configured action, a hook
that returns no definitions. -/
def envC8 : Env where
  action_mappings := [("Maya Scene", ["import"])]
  generate_actions := fun _ _ _ => Except.ok []
  execute_action := fun _ _ _ => Except.ok ()

/-- Record whose `created_at` is a float epoch. -/
def rC8f : SgRecord := ⟨5, some "Maya Scene", CreatedAt.pyFloat 99⟩

/-- Record whose `created_at` is an integer epoch — numeric, but not a
Python float. -/
def rC8i : SgRecord := ⟨6, some "Maya Scene", CreatedAt.pyInt 77⟩

/-- Environment for the C4 evaluation: the `action_mappings` setting is
empty, so every publish type has an empty configured action list. -/
def envC4 : Env where
  action_mappings := []
  generate_actions := fun _ _ _ => Except.ok []
  execute_action := fun _ _ _ => Except.ok ()

/-- Record whose type has no configured actions under `envC4`. -/
def rC4 : SgRecord := ⟨7, some "Maya Scene", CreatedAt.absent⟩

/-- Environment for the C2 evaluation: a single shared action name
`"import"` whose definition differs between records — the hook returns
params `"P1"` for the record with id 1 and `"P2"` otherwise. -/
def envC2 : Env where
  action_mappings := [("Maya Scene", ["import"])]
  generate_actions := fun sg _ _ =>
    Except.ok [⟨"import", "Import", "imports the file",
      if sg.id == 1 then "P1" else "P2"⟩]
  execute_action := fun _ _ _ => Except.ok ()

/-- First selected record for the C2 evaluation. -/
def rC2a : SgRecord := ⟨1, some "Maya Scene", CreatedAt.absent⟩

/-- Second selected record for the C2 evaluation. -/
def rC2b : SgRecord := ⟨2, some "Maya Scene", CreatedAt.absent⟩

/-- The `"import"` definition `envC2`'s hook produces for `rC2a`. -/
def defC2a : ActionDef := ⟨"import", "Import", "imports the file", "P1"⟩

/-- The `"import"` definition `envC2`'s hook produces for `rC2b`. -/
def defC2b : ActionDef := ⟨"import", "Import", "imports the file", "P2"⟩

/-- The keys of an intersection dictionary, in order. -/
def keysOf (d : IDict) : List String := d.map Prod.fst

/-- Every remaining record's DETAILS-area resolution contains the action
name `n` — the survival condition of one name in the intersection. -/
def passAll (env : Env) (rest : List SgRecord) (n : String) : Bool :=
  rest.all (fun r => memNames (detRes env r).2 n)

/-- Environment for the C1 witness, the spec's bulk-selection example:
record 1 resolves to `{reference, import}`, every other record to
`{reference}` only. -/
def envC1 : Env where
  action_mappings := [("Maya Scene", ["reference", "import"])]
  generate_actions := fun sg _ _ =>
    Except.ok (if sg.id == 1 then
      [⟨"reference", "Reference", "ref", "RP"⟩,
       ⟨"import", "Import", "imp", "IP"⟩]
    else
      [⟨"reference", "Reference", "ref", "RP"⟩])
  execute_action := fun _ _ _ => Except.ok ()

/-- First selected record for the C1 witness. -/
def rC1a : SgRecord := ⟨1, some "Maya Scene", CreatedAt.absent⟩

/-- Second selected record for the C1 witness. -/
def rC1b : SgRecord := ⟨2, some "Maya Scene", CreatedAt.absent⟩

/-- Environment for the C1 counterexample: empty `action_mappings`, so
no record has configured actions. -/
def envC1x : Env where
  action_mappings := []
  generate_actions := fun _ _ _ => Except.ok []
  execute_action := fun _ _ _ => Except.ok ()

/-- Record whose type has no configured actions under `envC1x`. -/
def rC1x : SgRecord := ⟨8, some "Maya Scene", CreatedAt.absent⟩

/-! ## Theorems for the claims -/

/-! ### Lemmas about the intersection loops -/

/-- Normalizing `created_at` does not change the record's publish type,
hence not its configured action list. -/
theorem actionsFor_normalize (env : Env) (sg : SgRecord) :
    actionsFor env (normalizeCreatedAt sg) = actionsFor env sg := rfl

/-- The epoch normalization is idempotent: a structured timestamp is not
a float, so a second pass leaves the record unchanged. -/
theorem normalizeCreatedAt_idem (sg : SgRecord) :
    normalizeCreatedAt (normalizeCreatedAt sg) = normalizeCreatedAt sg := by
  cases sg with
  | mk i t c => cases c <;> rfl

/-- Re-resolving the record that a DETAILS-area resolution handed back
(the in-place mutated record) changes nothing: the repeated per-name
calls of the inner loop are stable. -/
theorem detRes_stable (env : Env) (sg : SgRecord) :
    detRes env (detRes env sg).1 = detRes env sg := by
  by_cases h : actionsFor env sg = []
  · simp [detRes, h]
  · simp [detRes, h, actionsFor_normalize, normalizeCreatedAt_idem]

/-- Bridging lemma: at the DETAILS area `_get_named_actions_for_publish`
never raises, and equals its total specialisation `detRes`. -/
theorem resolveOne_details (env : Env) (sg : SgRecord) :
    resolveOne env sg UIArea.details = Except.ok (detRes env sg) := by
  by_cases h : actionsFor env sg = [] <;>
    simp [resolveOne, detRes, h, uiAreaStr]

/-- Membership via `in` agrees with the name list of a returned value. -/
theorem memNames_iff (a : PyActions) (n : String) :
    memNames a n = true ↔ n ∈ actNames a := by
  cases a with
  | pyList l => simp [memNames, actNames]
  | pyDict d => simp [memNames, actNames, List.any_eq_true, List.mem_map]

/-- Appending a pair to one key's list keeps the key set unchanged. -/
theorem appendTo_keys (d : IDict) (n : String) (pair : SgRecord × ActionDef) :
    keysOf (appendTo d n pair) = keysOf d := by
  unfold appendTo keysOf
  rw [List.map_map]
  apply List.map_congr_left
  intro p _
  simp only [Function.comp_apply]
  split <;> rfl

/-- Key membership after `del`: the deleted key is gone, all other keys
survive. -/
theorem delKey_mem (d : IDict) (n k : String) :
    k ∈ keysOf (delKey d n) ↔ k ∈ keysOf d ∧ k ≠ n := by
  unfold delKey keysOf
  constructor
  · intro h
    rcases List.mem_map.mp h with ⟨p, hp, rfl⟩
    rcases List.mem_filter.mp hp with ⟨hmem, hne⟩
    exact ⟨List.mem_map.mpr ⟨p, hmem, rfl⟩, bne_iff_ne.mp hne⟩
  · rintro ⟨h, hne⟩
    rcases List.mem_map.mp h with ⟨p, hp, rfl⟩
    exact List.mem_map.mpr ⟨p, List.mem_filter.mpr ⟨hp, bne_iff_ne.mpr hne⟩, rfl⟩

/-- The inner loop leaves every remaining record resolution-equivalent:
processed records are replaced by their mutated form, whose DETAILS
resolution is unchanged. -/
theorem innerLoop_rest_map (env : Env) (leaked : ActionDef) (n : String) :
    ∀ (rest : List SgRecord) (dict : IDict),
      ((innerLoop env leaked n dict rest).2).map (detRes env) =
        rest.map (detRes env) := by
  intro rest
  induction rest with
  | nil => intro dict; simp [innerLoop]
  | cons sg tl ih =>
    intro dict
    by_cases hm : memNames (detRes env sg).2 n = true
    · simp [innerLoop, hm, ih, detRes_stable]
    · simp [innerLoop, hm, detRes_stable]

/-- Key membership after the inner loop: a key survives iff it was there
before and, when it is the processed name, every remaining record's
DETAILS resolution contains that name. -/
theorem innerLoop_keys_mem (env : Env) (leaked : ActionDef) (n k : String) :
    ∀ (rest : List SgRecord) (dict : IDict),
      k ∈ keysOf (innerLoop env leaked n dict rest).1 ↔
        (k ∈ keysOf dict ∧ (k = n → passAll env rest n = true)) := by
  intro rest
  induction rest with
  | nil => intro dict; simp [innerLoop, passAll]
  | cons sg tl ih =>
    intro dict
    by_cases hm : memNames (detRes env sg).2 n = true
    · simp [innerLoop, hm, ih, appendTo_keys, passAll]
    · simp [innerLoop, hm, delKey_mem, passAll]

/-- Pushing `all` through `map` (the library lemma is restricted to an
endofunction). -/
theorem all_map_general {α β : Type} (l : List α) (f : α → β)
    (p : β → Bool) : (l.map f).all p = l.all (fun a => p (f a)) := by
  induction l with
  | nil => rfl
  | cons a tl ih => simp [ih]

/-- Survival only depends on the records' DETAILS resolutions. -/
theorem passAll_congr (env : Env) {r1 r2 : List SgRecord}
    (h : r1.map (detRes env) = r2.map (detRes env)) (n : String) :
    passAll env r1 n = passAll env r2 n := by
  unfold passAll
  calc r1.all (fun r => memNames (detRes env r).2 n)
      = (r1.map (detRes env)).all (fun p => memNames p.2 n) := by
        rw [all_map_general]
    _ = (r2.map (detRes env)).all (fun p => memNames p.2 n) := by rw [h]
    _ = r2.all (fun r => memNames (detRes env r).2 n) := by
        rw [all_map_general]

/-- The whole name loop also leaves every remaining record
resolution-equivalent. -/
theorem nameLoop_rest_map (env : Env) (leaked : ActionDef) :
    ∀ (names : List String) (dict : IDict) (rest : List SgRecord),
      ((nameLoop env leaked names dict rest).2).map (detRes env) =
        rest.map (detRes env) := by
  intro names
  induction names with
  | nil => intro dict rest; simp [nameLoop]
  | cons n tl ih =>
    intro dict rest
    simp only [nameLoop]
    rw [ih, innerLoop_rest_map]

/-- Key membership after the whole name loop: a key survives iff it was
in the seed dictionary and, when it is one of the visited names, every
remaining record's DETAILS resolution contains it. -/
theorem nameLoop_keys_mem (env : Env) (leaked : ActionDef) (k : String) :
    ∀ (names : List String) (dict : IDict) (rest : List SgRecord),
      k ∈ keysOf (nameLoop env leaked names dict rest).1 ↔
        (k ∈ keysOf dict ∧ (k ∈ names → passAll env rest k = true)) := by
  intro names
  induction names with
  | nil => intro dict rest; simp [nameLoop]
  | cons n tl ih =>
    intro dict rest
    simp only [nameLoop]
    rw [ih, innerLoop_keys_mem,
      passAll_congr env (innerLoop_rest_map env leaked n rest dict) k]
    constructor
    · rintro ⟨⟨hd, h1⟩, h2⟩
      refine ⟨hd, fun hk => ?_⟩
      rcases List.mem_cons.mp hk with rfl | hk
      · exact h1 rfl
      · exact h2 hk
    · rintro ⟨hd, h⟩
      refine ⟨⟨hd, fun hk => ?_⟩, fun hk => h (List.mem_cons_of_mem _ hk)⟩
      subst hk
      exact h (List.mem_cons_self _ _)

/-- Name set of a DETAILS-area resolution, in `detRes` form. -/
theorem namesForPublish_details (env : Env) (r : SgRecord) :
    namesForPublish env r UIArea.details = actNames (detRes env r).2 := by
  simp [namesForPublish, resolveOne_details]

/-- Claim C6: in `filterAcceptsRow` the status check runs before the
type-id accept-all short-circuit.  First part: whenever `_valid_statuses`
is not an accept-all sentinel, record data is present and its status
differs, the row is rejected — for every `_valid_type_ids`, in particular
the accept-all `none`.  Second part: whenever the status check passes and
`_valid_type_ids` is the accept-all sentinel, the row is accepted. -/
theorem claim_C6 (st : ProxyModelState) (m : String → Bool) (row : Row) :
    (∀ d, statusSentinel st.valid_statuses = false → row.sg_data = some d →
      d.sg_status_list ≠ st.valid_statuses →
      filterAcceptsRow st m row = Except.ok false) ∧
    (statusCheckPasses st row = true → st.valid_type_ids = none →
      filterAcceptsRow st m row = Except.ok true) := by
  constructor
  · intro d hs hd hne
    simp [filterAcceptsRow, hs, hd, hne]
  · intro hpass hids
    rcases hsent : statusSentinel st.valid_statuses with _ | _
    · rcases hd : row.sg_data with _ | d
      · simp [statusCheckPasses, hsent, hd] at hpass
      · simp [statusCheckPasses, hsent, hd] at hpass
        simp [filterAcceptsRow, hsent, hd, hids, hpass]
    · simp [filterAcceptsRow, hsent, hids]

/-- Witness for C6: status `"fin"` differs from the filter's `"ip"` so
the row is rejected although `_valid_type_ids` is accept-all; and with
`_valid_statuses = None` and `_valid_type_ids = None` a row is
accepted. -/
theorem claim_C6_witness :
    filterAcceptsRow ⟨none, true, some "ip"⟩ (fun _ => true)
      ⟨some ⟨"a", some "fin"⟩, false, none⟩ = Except.ok false ∧
    filterAcceptsRow ⟨none, true, none⟩ (fun _ => true)
      ⟨none, false, none⟩ = Except.ok true :=
  ⟨(claim_C6 _ _ _).1 ⟨"a", some "fin"⟩ (by decide) rfl (by decide),
   (claim_C6 _ _ _).2 (by decide) rfl⟩

/-- Claim C7: when the status check passes and `_valid_type_ids` is not
the accept-all sentinel, a folder row is accepted iff `_show_folders`; a
non-folder row without a type id is accepted unconditionally; and a
non-folder row with a type id is accepted iff the id is among the valid
ids and the display name matches the pattern. -/
theorem claim_C7 (st : ProxyModelState) (ids : List Nat)
    (m : String → Bool) (row : Row)
    (hpass : statusCheckPasses st row = true)
    (hids : st.valid_type_ids = some ids) :
    (row.is_folder = true →
      filterAcceptsRow st m row = Except.ok st.show_folders) ∧
    (row.is_folder = false → row.type_id = none →
      filterAcceptsRow st m row = Except.ok true) ∧
    (∀ t, row.is_folder = false → row.type_id = some t →
      filterAcceptsRow st m row =
        Except.ok (ids.contains t && m (rowDisplayName row))) := by
  have hbody : filterAcceptsRow st m row =
      (if row.is_folder then Except.ok st.show_folders
       else match row.type_id with
         | none => Except.ok true
         | some t => Except.ok (ids.contains t && m (rowDisplayName row))) := by
    rcases hsent : statusSentinel st.valid_statuses with _ | _
    · rcases hd : row.sg_data with _ | d
      · simp [statusCheckPasses, hsent, hd] at hpass
      · simp [statusCheckPasses, hsent, hd] at hpass
        simp [filterAcceptsRow, hsent, hd, hids, hpass, rowDisplayName]
    · rcases hd : row.sg_data with _ | d <;>
        simp [filterAcceptsRow, hsent, hd, hids, rowDisplayName]
  refine ⟨fun hf => ?_, fun hf ht => ?_, fun t hf ht => ?_⟩
  · simp [hbody, hf]
  · simp [hbody, hf, ht]
  · simp [hbody, hf, ht]

/-- Witness for C7, the spec's own example: `validTypeIds = [7]`,
`showFolders = false`; a folder row is rejected, a typed row with id 7
whose name matches is accepted, a typed row with id 9 is rejected. -/
theorem claim_C7_witness :
    filterAcceptsRow ⟨some [7], false, none⟩ (fun s => s == "shot")
      ⟨none, true, none⟩ = Except.ok false ∧
    filterAcceptsRow ⟨some [7], false, none⟩ (fun s => s == "shot")
      ⟨some ⟨"shot", none⟩, false, some 7⟩ = Except.ok true ∧
    filterAcceptsRow ⟨some [7], false, none⟩ (fun s => s == "shot")
      ⟨some ⟨"shot", none⟩, false, some 9⟩ = Except.ok false :=
  ⟨(claim_C7 _ [7] _ _ (by decide) rfl).1 rfl,
   (claim_C7 _ [7] _ _ (by decide) rfl).2.2 7 rfl rfl,
   (claim_C7 _ [7] _ _ (by decide) rfl).2.2 9 rfl rfl⟩

/-- Claim C10: `filterAcceptsRow` is not total — when the row's record
data is absent (falsy) and `_valid_statuses` is set to a non-sentinel
value, the status comparison reads the never-assigned local
`publish_status` and the call raises instead of returning a boolean. -/
theorem claim_C10 (st : ProxyModelState) (m : String → Bool) (row : Row)
    (h1 : row.sg_data = none)
    (h2 : statusSentinel st.valid_statuses = false) :
    filterAcceptsRow st m row = Except.error FilterError.unboundLocal := by
  simp [filterAcceptsRow, h1, h2]

/-- Witness for C10: a row with no record data while the status filter
is `"ip"` raises the unbound-local error. -/
theorem claim_C10_witness :
    filterAcceptsRow ⟨none, true, some "ip"⟩ (fun _ => true)
      ⟨none, false, none⟩ = Except.error FilterError.unboundLocal :=
  claim_C10 _ _ _ rfl (by decide)

/-- Claim C3 as amended: when the execution hook fails on a pair, the
failure is caught (the function returns normally) and surfaced once as
an error notification naming the underlying cause, but the remaining
pairs after the failing one are NOT executed — the `try` of
`_execute_hook` wraps the whole loop, so the first failure ends the
iteration.  Every pair before the failure, and the failing pair itself,
is invoked. -/
theorem claim_C3 (env : Env) (name : String)
    (pre post : List (SgRecord × String)) (sg : SgRecord) (p e : String)
    (hpre : ∀ q ∈ pre, env.execute_action name q.2 q.1 = Except.ok ())
    (hfail : env.execute_action name p sg = Except.error e) :
    execute_hook env name (pre ++ (sg, p) :: post) =
      (pre ++ [(sg, p)], some e) := by
  induction pre with
  | nil => simp [execute_hook, hfail]
  | cons q tl ih =>
    have hq := hpre q (List.mem_cons_self q tl)
    have htl := fun r hr => hpre r (List.mem_cons_of_mem q hr)
    cases q with
    | mk qsg qp =>
      simp only [List.cons_append, execute_hook, hq, List.append_eq, ih htl]

/-- Counterexample to C3 as stated: with two pairs where the first
fails, only the first pair is ever invoked — the remaining pair after
the failing one is not executed, contradicting the claimed
partial-failure semantics. -/
theorem claim_C3_counterexample :
    execute_hook envC3 "import" [(rC3fail, "p1"), (rC3ok, "p2")] =
      ([(rC3fail, "p1")], some "boom") ∧
    (rC3ok, "p2") ∉
      (execute_hook envC3 "import" [(rC3fail, "p1"), (rC3ok, "p2")]).1 := by
  decide

/-- Witness for the amended C3: one succeeding pair, then a failing one,
then a pair that is dropped; the result records the invoked prefix and
the single surfaced error text. -/
theorem claim_C3_witness :
    execute_hook envC3 "import"
        ([(rC3ok, "p2")] ++ (rC3fail, "p1") :: [(rC3ok, "p3")]) =
      ([(rC3ok, "p2")] ++ [(rC3fail, "p1")], some "boom") :=
  claim_C3 envC3 "import" [(rC3ok, "p2")] [(rC3ok, "p3")] rC3fail "p1" "boom"
    (by
      intro q hq
      rw [List.mem_singleton.mp hq]
      rfl)
    rfl

/-- Claim C5: when the record's type has configured actions, the area is
valid and the `generate_actions` hook raises,
`_get_named_actions_for_publish` returns the empty dictionary — the
exception is caught inside the function and never propagated. -/
theorem claim_C5 (env : Env) (sg : SgRecord) (ui : UIArea) (s : String)
    (hs : uiAreaStr ui = some s)
    (hne : actionsFor env sg ≠ [])
    (hhook : env.generate_actions (normalizeCreatedAt sg) (actionsFor env sg) s
      = Except.error ()) :
    resolveOne env sg ui =
      Except.ok (normalizeCreatedAt sg, PyActions.pyDict []) := by
  simp [resolveOne, hne, hs, dictOfHook, hhook]

/-- Witness for C5: a hook that always raises yields the empty
dictionary for a MAIN-area resolution, with no propagated error. -/
theorem claim_C5_witness :
    resolveOne envC5 rC5 UIArea.main =
      Except.ok (normalizeCreatedAt rC5, PyActions.pyDict []) :=
  claim_C5 envC5 rC5 UIArea.main "main" rfl (by decide) rfl

/-- Claim C9: for a record with a non-empty configured action list,
every UI-area value other than MAIN, DETAILS and HISTORY makes
`_get_named_actions_for_publish` raise the `TankError` (which the call
propagates), while the three valid values map to their lowercase labels
and the call returns normally. -/
theorem claim_C9 (env : Env) (sg : SgRecord)
    (hne : actionsFor env sg ≠ []) :
    (∀ k, resolveOne env sg (UIArea.unknown k) = Except.error PyErr.tankError) ∧
    uiAreaStr UIArea.main = some "main" ∧
    uiAreaStr UIArea.details = some "details" ∧
    uiAreaStr UIArea.history = some "history" ∧
    (∀ ui s, uiAreaStr ui = some s →
      ∃ r, resolveOne env sg ui = Except.ok r) := by
  refine ⟨fun k => ?_, rfl, rfl, rfl, fun ui s hs => ?_⟩
  · simp [resolveOne, hne, uiAreaStr]
  · exact ⟨(normalizeCreatedAt sg,
      dictOfHook env (normalizeCreatedAt sg) (actionsFor env sg) s),
      by simp [resolveOne, hne, hs]⟩

/-- Witness for C9: an unsupported area value raises the `TankError`,
the MAIN area resolves without error. -/
theorem claim_C9_witness :
    resolveOne envC9 rC9 (UIArea.unknown 0) = Except.error PyErr.tankError ∧
    (∃ r, resolveOne envC9 rC9 UIArea.main = Except.ok r) :=
  ⟨(claim_C9 envC9 rC9 (by decide)).1 0,
   (claim_C9 envC9 rC9 (by decide)).2.2.2.2 UIArea.main "main" rfl⟩

/-- Claim C8 as amended: the in-place epoch normalization applies to a
`created_at` held as a Python FLOAT (the code tests
`isinstance(unix_timestamp, float)`), not to every raw numeric epoch
value.  For a float epoch the record is updated in place to the
structured, timezone-aware timestamp and the hook is invoked on that
updated record. -/
theorem claim_C8 (env : Env) (sg : SgRecord) (ui : UIArea) (s : String)
    (e : Int)
    (hca : sg.created_at = CreatedAt.pyFloat e)
    (hne : actionsFor env sg ≠ [])
    (hs : uiAreaStr ui = some s) :
    resolveOne env sg ui =
      Except.ok ({ sg with created_at := CreatedAt.sgTimestamp e },
        dictOfHook env { sg with created_at := CreatedAt.sgTimestamp e }
          (actionsFor env sg) s) ∧
    CreatedAt.isStructured (CreatedAt.sgTimestamp e) = true := by
  have hnorm : normalizeCreatedAt sg =
      { sg with created_at := CreatedAt.sgTimestamp e } := by
    simp [normalizeCreatedAt, hca]
  refine ⟨?_, rfl⟩
  simp [resolveOne, hne, hs, hnorm]

/-- Witness for the amended C8: a float epoch of 99 is replaced by the
structured timestamp before the hook call. -/
theorem claim_C8_witness :
    resolveOne envC8 rC8f UIArea.main =
      Except.ok ({ rC8f with created_at := CreatedAt.sgTimestamp 99 },
        dictOfHook envC8 { rC8f with created_at := CreatedAt.sgTimestamp 99 }
          (actionsFor envC8 rC8f) "main") :=
  (claim_C8 envC8 rC8f UIArea.main "main" 99 rfl (by decide) rfl).1

/-- Counterexample to C8 as stated: a `created_at` holding the raw
numeric epoch 77 as a Python int (not float) passes through
`_get_named_actions_for_publish` unchanged — the field is not replaced
by a structured timestamp, because the code only tests for float. -/
theorem claim_C8_counterexample :
    resolveOne envC8 rC8i UIArea.main =
      Except.ok (rC8i, PyActions.pyDict []) ∧
    rC8i.created_at = CreatedAt.pyInt 77 ∧
    CreatedAt.isStructured rC8i.created_at = false := by
  decide

/-- Claim C4: at a record whose type has no configured actions,
`_get_named_actions_for_publish` returns the Python list `[]` instead of
the dictionary its docstring promises, and `get_actions_for_publishes`
on a list starting with such a record then raises `AttributeError` on
`[].iteritems()` instead of returning an empty result. -/
theorem claim_C4 :
    resolveOne envC4 rC4 UIArea.main =
      Except.ok (rC4, PyActions.pyList []) ∧
    get_actions_for_publishes envC4 [rC4] UIArea.main =
      Except.error PyErr.attributeError := by
  decide

/-- Claim C2: the pair appended for a subsequent record carries the
stale comprehension variable `action` — the definition produced for the
FIRST record — not the subsequent record's own DETAILS-area definition.
Here both records share the action `"import"` but with different
`params`; the pair recorded for `rC2b` holds `defC2a` (params `"P1"`)
although `rC2b`'s own resolution produces `defC2b` (params `"P2"`). -/
theorem claim_C2 :
    get_actions_for_publishes envC2 [rC2a, rC2b] UIArea.main =
      Except.ok [("import", [(rC2a, defC2a), (rC2b, defC2a)])] ∧
    (detRes envC2 rC2b).2 = PyActions.pyDict [("import", defC2b)] ∧
    defC2a ≠ defC2b := by
  decide

/-- Claim C1 as amended: for every non-empty record list whose FIRST
record has a non-empty configured action list, and every valid UI area,
the action-name set produced by `get_actions_for_publishes` is exactly
the intersection of the first record's name set at the requested area
with every subsequent record's name set at the DETAILS area (for a
single-record list this is the first record's own name set).  The
restriction on the first record is forced by the empty-list defect of
C4: without it the call raises instead of producing a name set. -/
theorem claim_C1 (env : Env) (first : SgRecord) (rest : List SgRecord)
    (ui : UIArea) (s : String)
    (hs : uiAreaStr ui = some s)
    (hne : actionsFor env first ≠ []) :
    ∃ out, get_actions_for_publishes env (first :: rest) ui = Except.ok out ∧
      ∀ n, n ∈ out.map Prod.fst ↔
        (n ∈ namesForPublish env first ui ∧
          ∀ r ∈ rest, n ∈ namesForPublish env r UIArea.details) := by
  obtain ⟨d, hd⟩ : ∃ d,
      dictOfHook env (normalizeCreatedAt first) (actionsFor env first) s =
        PyActions.pyDict d := by
    unfold dictOfHook
    cases env.generate_actions (normalizeCreatedAt first)
        (actionsFor env first) s with
    | error u => exact ⟨[], rfl⟩
    | ok defs => exact ⟨indexByName defs, rfl⟩
  have hres : resolveOne env first ui =
      Except.ok (normalizeCreatedAt first, PyActions.pyDict d) := by
    simp [resolveOne, hne, hs, hd]
  have hnames : namesForPublish env first ui = d.map Prod.fst := by
    simp [namesForPublish, hres, actNames]
  cases hlast : d.getLast? with
  | none =>
    have hdnil : d = [] := by
      cases d with
      | nil => rfl
      | cons p tl => simp at hlast
    subst hdnil
    refine ⟨[], ?_, ?_⟩
    · simp [get_actions_for_publishes, hres, hlast]
    · intro n
      simp [hnames]
  | some lp =>
    refine ⟨(nameLoop env lp.2 (d.map Prod.fst)
      (d.map (fun p => (p.1, [(normalizeCreatedAt first, p.2)]))) rest).1,
      ?_, ?_⟩
    · simp [get_actions_for_publishes, hres, hlast]
    · intro n
      have hkeys := nameLoop_keys_mem env lp.2 n (d.map Prod.fst)
        (d.map (fun p => (p.1, [(normalizeCreatedAt first, p.2)]))) rest
      have hinit : keysOf
          (d.map (fun p => (p.1, [(normalizeCreatedAt first, p.2)]))) =
          d.map Prod.fst := by
        unfold keysOf
        rw [List.map_map]
        rfl
      rw [keysOf] at hkeys
      rw [hkeys, hinit, hnames]
      constructor
      · rintro ⟨h1, h2⟩
        refine ⟨h1, fun r hr => ?_⟩
        rw [namesForPublish_details, ← memNames_iff]
        exact List.all_eq_true.mp (h2 h1) r hr
      · rintro ⟨h1, h2⟩
        refine ⟨h1, fun _ => List.all_eq_true.mpr fun r hr => ?_⟩
        rw [memNames_iff, ← namesForPublish_details]
        exact h2 r hr

/-- Witness for the amended C1, at the spec's own example: record 1
yields `{reference, import}` at MAIN, record 2 yields `{reference}` at
DETAILS; the bulk resolution's name set is their intersection. -/
theorem claim_C1_witness :
    ∃ out, get_actions_for_publishes envC1 (rC1a :: [rC1b]) UIArea.main =
        Except.ok out ∧
      ∀ n, n ∈ out.map Prod.fst ↔
        (n ∈ namesForPublish envC1 rC1a UIArea.main ∧
          ∀ r ∈ [rC1b], n ∈ namesForPublish envC1 r UIArea.details) :=
  claim_C1 envC1 rC1a [rC1b] UIArea.main "main" rfl (by decide)

/-- Counterexample to C1 as stated: when the first record's type has no
configured actions, the claim demands the output name set to equal the
record's own (empty) name set, but `get_actions_for_publishes` produces
no name set at all — it raises `AttributeError` (the C4 defect). -/
theorem claim_C1_counterexample :
    get_actions_for_publishes envC1x [rC1x] UIArea.main =
      Except.error PyErr.attributeError ∧
    namesForPublish envC1x rC1x UIArea.main = [] := by
  decide

end LoaderApp
